import Mathlib

/-!
Formal model of the ElasticSearch Python module, a thin wrapper class around an
external Elasticsearch client library.

Modelling conventions:
  - Python dictionaries with string keys are insertion-ordered association
    lists of JSON-like values; assignment replaces a present key in place.
  - The external client library is an oracle (structure `Client`): every
    underlying call the wrapper may issue is a field giving either the returned
    value or the exception the call raised.  The wrapper treats the client as a
    black box, so oracle behaviour is universally quantified in the theorems.
  - Each wrapper method is a pure function returning the Python outcome (a
    normal return, or the exception that propagated to the caller) together
    with the trace of client calls it issued, in order.
  - Python datetime instants are identified with their count of microseconds
    since the Unix epoch (datetime resolution is one microsecond).  The
    timestamp conversions compute through IEEE-754 binary64 floats in CPython;
    those floats are modelled exactly, as integer mantissa times a power of
    two with correct round-to-nearest-even at every operation.  Exact-rational
    idealizations of the two conversions, clearly named so, stand beside the
    faithful ones for comparison.
-/

/-- JSON-like values: the payloads exchanged with the search engine. -/
inductive JVal where
  | null
  | bool (b : Bool)
  | num (n : Int)
  | str (s : String)
  | arr (xs : List JVal)
  | obj (fields : List (String × JVal))

/-- Python exceptions are identified by their message. -/
abbrev Err := String

/-- A Python dict with string keys, as an insertion-ordered association list. -/
abbrev Doc := List (String × JVal)

/-- Dict lookup d[k], none when the key is absent. -/
def getField : Doc → String → Option JVal
  | [], _ => none
  | (k0, v) :: rest, k => if k0 = k then some v else getField rest k

/-- Dict assignment d[k] = v: replaces the value in place when the key is
present, otherwise appends the new binding at the end. -/
def setField : Doc → String → JVal → Doc
  | [], k, v => [(k, v)]
  | (k0, v0) :: rest, k, v =>
    if k0 = k then (k, v) :: rest else (k0, v0) :: setField rest k v

/-- Python truthiness of a JSON value. -/
def truthy : JVal → Bool
  | .null => false
  | .bool b => b
  | .num n => n != 0
  | .str s => s != ""
  | .arr xs => !xs.isEmpty
  | .obj fs => !fs.isEmpty

/-- Subscript v[k]: some value when v is a dict carrying the key, none when the
subscript expression would raise (missing key, or not a dict). -/
def jIndex : JVal → String → Option JVal
  | .obj fs, k => getField fs k
  | _, _ => none

/-- Projection response[hits][hits] used by the search wrapper: none when
either subscript would raise. -/
def hitsOf (resp : JVal) : Option JVal :=
  match jIndex resp "hits" with
  | none => none
  | some h => jIndex h "hits"

/-- Fuel-driven floor of the base-2 logarithm; the fuel only bounds the
recursion depth and the first argument n itself is always enough fuel. -/
def log2Fuel : Nat → Nat → Nat
  | 0, _ => 0
  | fuel + 1, n => if n ≤ 1 then 0 else log2Fuel fuel (n / 2) + 1

/-- Floor of log2 n for n at least 1 (0 at 0). -/
def natLog2 (n : Nat) : Nat := log2Fuel n n

/-- Floor of log2 of the positive fraction a / b, both a and b at least 1. -/
def floorLog2 (a b : Nat) : Int :=
  let e0 : Int := (natLog2 a : Int) - (natLog2 b : Int)
  if 0 ≤ e0 then
    (if b * 2 ^ e0.toNat ≤ a then e0 else e0 - 1)
  else
    (if b ≤ a * 2 ^ (-e0).toNat then e0 else e0 - 1)

/-- Nearest integer to a / b for positive b, ties going to the even neighbour:
the rounding rule of IEEE-754 and of the Python round() builtin.  Here a / b
and a % b are floor division and its remainder, lying in [0, b). -/
def rndHalfEven (a b : Int) : Int :=
  let q := a / b
  let r := a % b
  if 2 * r < b then q
  else if b < 2 * r then q + 1
  else if q % 2 = 0 then q else q + 1

/-- A finite IEEE-754 binary64 value, held exactly as the rational n * 2^e.
Every float arising in this program lies well inside the normal range, so a
mantissa and exponent pair captures CPython float values exactly. -/
structure Dyadic where
  n : Int
  e : Int

/-- Correct rounding of the rational a / b (b positive) to the nearest
binary64 value, ties to even: the absolute value of the returned mantissa
lies in [2^52, 2^53], carrying 53 significant bits. -/
def roundFrac (a : Int) (b : Nat) : Dyadic :=
  if a = 0 then ⟨0, 0⟩
  else
    let s : Int := if a < 0 then -1 else 1
    let a0 : Nat := a.natAbs
    let e : Int := floorLog2 a0 b - 52
    let n : Int :=
      if 0 ≤ e then rndHalfEven (a0 : Int) ((b * 2 ^ e.toNat : Nat) : Int)
      else rndHalfEven ((a0 * 2 ^ (-e).toNat : Nat) : Int) (b : Int)
    ⟨s * n, e⟩

/-- Python int() on a float, and the integer part computed by math.modf:
truncation of the exact value toward zero. -/
def truncDyadic (d : Dyadic) : Int :=
  if 0 ≤ d.e then d.n * 2 ^ d.e.toNat
  else Int.tdiv d.n (2 ^ (-d.e).toNat)

/-- CPython datetime.timestamp() for the instant at m microseconds since the
epoch: the exact seconds value m / 10^6 correctly rounded to binary64.
CPython reaches this float by dividing the exact integer microsecond count by
10^6 in float true division, which is correctly rounded. -/
def pyTimestamp (m : Int) : Dyadic := roundFrac m 1000000

/-- IEEE-754 binary64 multiplication of a float by the exactly representable
constant 1000.0: the exact product, re-rounded to 53 significant bits. -/
def dyadicMul1000 (d : Dyadic) : Dyadic :=
  if 0 ≤ d.e then roundFrac (d.n * 1000 * 2 ^ d.e.toNat) 1
  else roundFrac (d.n * 1000) (2 ^ (-d.e).toNat)

/-- Source function to_es_timestamp: int(datetime_obj.timestamp() * 1000) for
a datetime at m microseconds since the epoch, computed the way CPython does:
timestamp() and the multiplication by 1000 round to binary64, and int()
truncates the resulting float toward zero. -/
def to_es_timestamp (m : Int) : Int := truncDyadic (dyadicMul1000 (pyTimestamp m))

/-- Source function from_es_timestamp: datetime.fromtimestamp(timestamp / 1000,
tz) with tz defaulting to UTC, returning the microsecond count of the
resulting UTC datetime.  The CPython pipeline: ts / 1000 is correctly rounded
float true division; fromtimestamp splits the float with math.modf (both parts
exact), rounds the fractional part times 10^6 (a rounded float multiplication)
to whole microseconds with round() (ties to even), and carries into the
seconds part when that rounding lands outside [0, 10^6). -/
def from_es_timestamp (ts : Int) : Int :=
  let t : Dyadic := roundFrac ts 1000
  let ip : Int := truncDyadic t
  let fracN : Int := if 0 ≤ t.e then 0 else t.n - ip * (2 ^ (-t.e).toNat : Nat)
  let us : Int :=
    if fracN = 0 then 0
    else
      let u : Dyadic := roundFrac (fracN * 1000000) (2 ^ (-t.e).toNat)
      if 0 ≤ u.e then u.n * 2 ^ u.e.toNat
      else rndHalfEven u.n (2 ^ (-u.e).toNat)
  if 1000000 ≤ us then (ip + 1) * 1000000 + (us - 1000000)
  else if us < 0 then (ip - 1) * 1000000 + (us + 1000000)
  else ip * 1000000 + us

/-- Exact-arithmetic idealization of datetime.timestamp(): the exact rational
seconds value of the instant at m microseconds since the epoch, with no float
rounding.  Used only to compare the implemented conversions against their
idealization. -/
def exactSeconds (m : Int) : ℚ := (m : ℚ) / 1000000

/-- Python int(x) on an exact real number: truncation toward zero. -/
def pyInt (q : ℚ) : Int := if 0 ≤ q then ⌊q⌋ else ⌈q⌉

/-- Exact-arithmetic idealization of to_es_timestamp, evaluating
int(datetime_obj.timestamp() * 1000) without binary64 rounding. -/
def to_es_timestamp_exact (m : Int) : Int := pyInt (exactSeconds m * 1000)

/-- Exact-arithmetic idealization of from_es_timestamp, evaluating
datetime.fromtimestamp(timestamp / 1000, UTC) without binary64 rounding: the
instant at exactly timestamp / 1000 seconds, as whole microseconds. -/
def from_es_timestamp_exact (ts : Int) : Int := round ((ts : ℚ) / 1000 * 1000000)

/-- One call issued to the external client (reads and writes alike). -/
inductive ESCall where
  | infoCall
  | pingCall
  | existsCall (index : String)
  | createCall (index : String) (settings mappings : JVal)
  | deleteCall (index : String)
  | deleteByQueryCall (index : String) (q : JVal)
  | searchCall (index : String) (body : JVal) (size : Nat)
  | indexCall (index : String) (body : Doc)

/-- Oracle for the external elasticsearch client object: the outcome of every
call the wrapper may issue, either a returned value or a raised exception.
Field order: info, ping, indices.exists, indices.create, indices.delete,
delete_by_query, search, index. -/
structure Client where
  infoR : Except Err JVal
  pingR : Except Err Bool
  existsR : String → Except Err Bool
  createR : String → JVal → JVal → Except Err JVal
  deleteR : String → Except Err JVal
  deleteByQueryR : String → JVal → Except Err JVal
  searchR : String → JVal → Nat → Except Err JVal
  indexR : String → Doc → Except Err JVal

/-- Outcome of one wrapper method: the value returned to the caller (or the
exception that propagated, as Except.error), with the trace of client calls. -/
abbrev Outcome (α : Type) := Except Err α × List ESCall

namespace ElasticSearch

/-- Method ping: bool(self.client().ping()).  The call is not inside a try
block, so a client exception propagates to the caller. -/
def ping (c : Client) : Outcome Bool :=
  match c.pingR with
  | .ok b => (.ok b, [.pingCall])
  | .error e => (.error e, [.pingCall])

/-- Method check_index: bool(self.indices().exists(index=name)).  Not inside a
try block, so a client exception propagates. -/
def check_index (c : Client) (name : String) : Outcome Bool :=
  match c.existsR name with
  | .ok b => (.ok b, [.existsCall name])
  | .error e => (.error e, [.existsCall name])

/-- Method create_index: returns False when check_index(name) is True, else
tries indices.create inside a try block, returning True on success and False
when creation raises.  The leading check_index call is outside the try block,
so an exception it raises propagates. -/
def create_index (c : Client) (name : String) (settings mappings : JVal) :
    Outcome Bool :=
  match c.existsR name with
  | .error e => (.error e, [.existsCall name])
  | .ok true => (.ok false, [.existsCall name])
  | .ok false =>
    match c.createR name settings mappings with
    | .ok _ => (.ok true, [.existsCall name, .createCall name settings mappings])
    | .error _ => (.ok false, [.existsCall name, .createCall name settings mappings])

/-- Method empty_index: delete_by_query with a match_all query, inside a try
block; True on success, False when the call raises. -/
def empty_index (c : Client) (name : String) : Outcome Bool :=
  match c.deleteByQueryR name (JVal.obj [("match_all", JVal.obj [])]) with
  | .ok _ => (.ok true, [.deleteByQueryCall name (JVal.obj [("match_all", JVal.obj [])])])
  | .error _ => (.ok false, [.deleteByQueryCall name (JVal.obj [("match_all", JVal.obj [])])])

/-- Method delete_index: returns False when indices.exists(name) is False (that
existence probe sits outside the try block, so its exceptions propagate); then
inside a try block calls indices.delete and reads response[acknowledged],
returning True when it is truthy, False when it is falsy, and False when the
delete call or the subscript raises. -/
def delete_index (c : Client) (name : String) : Outcome Bool :=
  match c.existsR name with
  | .error e => (.error e, [.existsCall name])
  | .ok false => (.ok false, [.existsCall name])
  | .ok true =>
    match c.deleteR name with
    | .error _ => (.ok false, [.existsCall name, .deleteCall name])
    | .ok resp =>
      match jIndex resp "acknowledged" with
      | none => (.ok false, [.existsCall name, .deleteCall name])
      | some v =>
        if truthy v then (.ok true, [.existsCall name, .deleteCall name])
        else (.ok false, [.existsCall name, .deleteCall name])

/-- Default value of the raw parameter of the query method. -/
def query_default_raw : Bool := false

/-- Default value of the size parameter of the query method. -/
def query_default_size : Nat := 10000

/-- Method query: wraps q as a dict with single key query, calls search with
that body and the given size, all inside a try block.  With raw=True the full
response is returned; with raw=False response[hits][hits] is returned.  When
the search call or the subscripts raise, the exception is caught and None
(JVal.null) is returned. -/
def query (c : Client) (index : String) (q : JVal) (raw : Bool) (size : Nat) :
    Outcome JVal :=
  match c.searchR index (JVal.obj [("query", q)]) size with
  | .error _ => (.ok .null, [.searchCall index (JVal.obj [("query", q)]) size])
  | .ok resp =>
    if raw then (.ok resp, [.searchCall index (JVal.obj [("query", q)]) size])
    else
      match hitsOf resp with
      | some hits => (.ok hits, [.searchCall index (JVal.obj [("query", q)]) size])
      | none => (.ok .null, [.searchCall index (JVal.obj [("query", q)]) size])

/-- Method store: client.index(index, body) inside a try block; True on
success, False when the call raises. -/
def store (c : Client) (index : String) (body : Doc) : Outcome Bool :=
  match c.indexR index body with
  | .ok _ => (.ok true, [.indexCall index body])
  | .error _ => (.ok false, [.indexCall index body])

/-- Settings literal of the setup method: 2 shards and 2 replicas. -/
def setup_settings : JVal :=
  JVal.obj [("number_of_shards", JVal.num 2), ("number_of_replicas", JVal.num 2)]

/-- Mappings literal of the setup method: field id of type long, field
timestamp of type date with the three accepted formats. -/
def setup_mappings : JVal :=
  JVal.obj [("properties", JVal.obj
    [("id", JVal.obj [("type", JVal.str "long")]),
     ("timestamp", JVal.obj
       [("type", JVal.str "date"),
        ("format", JVal.str "yyyy-MM-dd HH:mm:ss||yyyy-MM-dd||epoch_millis")])])]

/-- Method setup: when check_index(data) is False, calls create_index on the
data index with the fixed settings and mappings (create_index repeats the
existence check itself); otherwise returns True.  The check_index call is not
inside any try block in setup, so an exception it raises propagates. -/
def setup (c : Client) : Outcome Bool :=
  match c.existsR "data" with
  | .error e => (.error e, [.existsCall "data"])
  | .ok true => (.ok true, [.existsCall "data"])
  | .ok false =>
    match create_index c "data" setup_settings setup_mappings with
    | (r, t) => (r, .existsCall "data" :: t)

/-- Method get: query on the data index with the given query expression, or an
empty dict when None is given, with the default raw and size arguments. -/
def get (c : Client) (q : Option JVal) : Outcome JVal :=
  query c "data" (match q with | none => JVal.obj [] | some q0 => q0)
    query_default_raw query_default_size

/-- Method put: assigns body[timestamp] = to_es_timestamp(datetime.now()) in
place, then stores the mutated dict into the data index.  The parameter now is
the current instant in microseconds since the epoch.  The second component is
the content of the very dict object the caller passed in, as it stands after
the call. -/
def put (c : Client) (now : Int) (body : Doc) : Outcome Bool × Doc :=
  (store c "data" (setField body "timestamp" (JVal.num (to_es_timestamp now))),
   setField body "timestamp" (JVal.num (to_es_timestamp now)))

/-- Constructor: first builds the TLS context and loads the trust store (the
sslLoad argument, a purely local step preceding the try block, so its failure
propagates); then, inside a try block, constructs the client (connect), polls
the info API, and runs setup.  Any exception in that try block, including one
propagating out of setup, is caught and logged.  The result is Except.ok when
the object is constructed, carrying a flag telling whether the try block ran
to completion, and the trace of client calls issued. -/
def init (sslLoad : Except Err Unit) (connect : Except Err Client) :
    Except Err (Bool × List ESCall) :=
  match sslLoad with
  | .error e => .error e
  | .ok _ =>
    match connect with
    | .error _ => .ok (false, [])
    | .ok c =>
      match c.infoR with
      | .error _ => .ok (false, [.infoCall])
      | .ok _ =>
        match setup c with
        | (.error _, t) => .ok (false, .infoCall :: t)
        | (.ok _, t) => .ok (true, .infoCall :: t)

end ElasticSearch

/-- Concrete client whose every call raises. -/
def errClient : Client :=
  ⟨.error "boom", .error "boom", fun _ => .error "boom", fun _ _ _ => .error "boom",
   fun _ => .error "boom", fun _ _ => .error "boom", fun _ _ _ => .error "boom",
   fun _ _ => .error "boom"⟩

/-- A fixed search response carrying a hits.hits list plus extra metadata. -/
def sampleResp : JVal :=
  JVal.obj [("took", JVal.num 5),
            ("hits", JVal.obj [("total", JVal.num 1), ("hits", JVal.arr [JVal.num 7])])]

/-- Concrete client for which every index exists and every call succeeds. -/
def dataClient : Client :=
  ⟨.ok (JVal.obj []), .ok true, fun _ => .ok true, fun _ _ _ => .ok (JVal.obj []),
   fun _ => .ok (JVal.obj [("acknowledged", JVal.bool true)]),
   fun _ _ => .ok (JVal.obj []), fun _ _ _ => .ok sampleResp, fun _ _ => .ok (JVal.obj [])⟩

/-- Concrete client for which no index exists, creation raises, and search
succeeds with sampleResp. -/
def absClient : Client :=
  ⟨.ok (JVal.obj []), .ok true, fun _ => .ok false, fun _ _ _ => .error "create failed",
   fun _ => .ok (JVal.obj [("acknowledged", JVal.bool true)]),
   fun _ _ => .ok (JVal.obj []), fun _ _ _ => .ok sampleResp, fun _ _ => .ok (JVal.obj [])⟩

theorem getField_setField_same (d : Doc) (k : String) (v : JVal) :
    getField (setField d k v) k = some v := by
  induction d with
  | nil => simp [setField, getField]
  | cons kv rest ih =>
    obtain ⟨k0, v0⟩ := kv
    by_cases h : k0 = k
    · simp [setField, getField, h]
    · simp [setField, getField, h, ih]

theorem getField_setField_other (d : Doc) (k q : String) (v : JVal) (h : q ≠ k) :
    getField (setField d k v) q = getField d q := by
  induction d with
  | nil => simp [setField, getField, Ne.symm h]
  | cons kv rest ih =>
    obtain ⟨k0, v0⟩ := kv
    by_cases h0 : k0 = k
    · subst h0
      simp [setField, getField, Ne.symm h]
    · by_cases h1 : k0 = q <;> simp [setField, getField, h, h0, h1, ih]

theorem pyInt_intCast_div_thousand (m : Int) :
    pyInt ((m : ℚ) / 1000) = Int.tdiv m 1000 := by
  unfold pyInt
  rcases le_or_lt 0 m with hm | hm
  · have hm0 : (0 : ℚ) ≤ (m : ℚ) := by exact_mod_cast hm
    have h0 : (0 : ℚ) ≤ (m : ℚ) / 1000 := div_nonneg hm0 (by norm_num)
    rw [if_pos h0]
    have h1 : ((1000 : ℕ) : ℚ) = (1000 : ℚ) := by norm_num
    rw [← h1, Rat.floor_intCast_div_natCast, Int.tdiv_eq_ediv hm (by norm_num)]
    norm_num
  · have hm0 : (m : ℚ) < 0 := by exact_mod_cast hm
    have h0 : ¬ (0 : ℚ) ≤ (m : ℚ) / 1000 :=
      not_le.mpr (div_neg_of_neg_of_pos hm0 (by norm_num))
    rw [if_neg h0]
    have hneg : -((m : ℚ) / 1000) = ((-m : ℤ) : ℚ) / ((1000 : ℕ) : ℚ) := by
      push_cast
      ring
    have hceil : ⌈(m : ℚ) / 1000⌉ = -⌊((-m : ℤ) : ℚ) / ((1000 : ℕ) : ℚ)⌋ := by
      rw [← hneg, Int.floor_neg, neg_neg]
    rw [hceil, Rat.floor_intCast_div_natCast]
    have htd : Int.tdiv m 1000 = -Int.tdiv (-m) 1000 := by
      have h2 := Int.neg_tdiv (-m) 1000
      rw [neg_neg] at h2
      exact h2
    rw [htd, Int.tdiv_eq_ediv (by omega) (by norm_num)]
    norm_num

theorem to_es_timestamp_exact_eq (m : Int) :
    to_es_timestamp_exact m = Int.tdiv m 1000 := by
  unfold to_es_timestamp_exact exactSeconds
  have h : (m : ℚ) / 1000000 * 1000 = (m : ℚ) / 1000 := by ring
  rw [h, pyInt_intCast_div_thousand]

theorem from_es_timestamp_exact_eq (k : Int) :
    from_es_timestamp_exact k = 1000 * k := by
  unfold from_es_timestamp_exact
  have h : (k : ℚ) / 1000 * 1000000 = ((1000 * k : ℤ) : ℚ) := by
    push_cast
    ring
  rw [h, round_intCast]

/-- C9 counterexample: the instant 2002000 microseconds after the epoch is a
whole number of milliseconds, yet the round trip of the implemented
conversions does not return it: timestamp() is the binary64 value just below
2.002, its float product with 1000 is just below 2002, int() truncates that to
2001, and from_es_timestamp maps 2001 back to the instant at 2001000
microseconds. -/
theorem timestamp_roundtrip_counterexample :
    (1000 : Int) ∣ 2002000 ∧
    from_es_timestamp (to_es_timestamp 2002000) = 2001000 ∧
    (2001000 : Int) ≠ 2002000 := by
  refine ⟨by decide, by decide, by decide⟩

/-- C9 amended: the claimed round trip holds for the exact-arithmetic
idealization of the two helpers: on whole-millisecond instants it is the
identity, and in general it truncates the instant toward zero to millisecond
precision.  The helpers as implemented compute through IEEE-754 binary64
values, which breaks the identity at some whole-millisecond instants while
keeping it at others: at 2002 milliseconds the implemented conversion yields
2001 and the round trip lands one millisecond early, while at 1000
milliseconds the round trip is exact. -/
theorem timestamp_roundtrip_amended (m : Int) :
    (1000 ∣ m → from_es_timestamp_exact (to_es_timestamp_exact m) = m) ∧
    from_es_timestamp_exact (to_es_timestamp_exact m) = 1000 * Int.tdiv m 1000 ∧
    to_es_timestamp 2002000 = 2001 ∧
    from_es_timestamp (to_es_timestamp 2002000) = 2001000 ∧
    to_es_timestamp 1000000 = 1000 ∧
    from_es_timestamp (to_es_timestamp 1000000) = 1000000 := by
  refine ⟨?_, ?_, by decide, by decide, by decide, by decide⟩
  · rintro ⟨j, rfl⟩
    rw [to_es_timestamp_exact_eq, from_es_timestamp_exact_eq,
      Int.mul_tdiv_cancel_left j (by norm_num)]
  · rw [to_es_timestamp_exact_eq, from_es_timestamp_exact_eq]

/-- Witness for the amended C9 at the instant 5000000 microseconds after the
epoch, a whole number of milliseconds. -/
theorem timestamp_roundtrip_amended_witness :
    from_es_timestamp_exact (to_es_timestamp_exact 5000000) = 5000000 :=
  (timestamp_roundtrip_amended 5000000).1 ⟨5000, by norm_num⟩

/-- C1: every document given to put is stored through store into the data
index carrying a timestamp field equal to the write-time millisecond epoch,
and every other field is preserved unchanged in the stored document. -/
theorem put_stamps_and_preserves (c : Client) (now : Int) (body : Doc) :
    (ElasticSearch.put c now body).1.2 =
      [ESCall.indexCall "data" (setField body "timestamp" (JVal.num (to_es_timestamp now)))] ∧
    getField (ElasticSearch.put c now body).2 "timestamp" =
      some (JVal.num (to_es_timestamp now)) ∧
    ∀ k, k ≠ "timestamp" →
      getField (ElasticSearch.put c now body).2 k = getField body k := by
  refine ⟨?_, getField_setField_same body "timestamp" _, ?_⟩
  · show (ElasticSearch.store c "data" _).2 = _
    unfold ElasticSearch.store
    rcases c.indexR "data" (setField body "timestamp" (JVal.num (to_es_timestamp now))) <;> rfl
  · intro k hk
    exact getField_setField_other body "timestamp" k _ hk

/-- Witness for C1: the id field of a concrete document survives put. -/
theorem put_stamps_and_preserves_witness :
    getField (ElasticSearch.put dataClient 1700000000123456 [("id", JVal.num 7)]).2 "id" =
      getField [("id", JVal.num 7)] "id" :=
  (put_stamps_and_preserves dataClient 1700000000123456 [("id", JVal.num 7)]).2.2 "id"
    (by decide)

/-- C10: put mutates the dict the caller passed in place: after the call that
dict is exactly the original with timestamp bound to the write-time
millisecond epoch, and the timestamp lookup yields the new value whatever
value the key held before. -/
theorem put_mutates_caller_doc (c : Client) (now : Int) (body : Doc) :
    (ElasticSearch.put c now body).2 =
      setField body "timestamp" (JVal.num (to_es_timestamp now)) ∧
    getField (ElasticSearch.put c now body).2 "timestamp" =
      some (JVal.num (to_es_timestamp now)) :=
  ⟨rfl, getField_setField_same body "timestamp" _⟩

/-- C2: with the local TLS trust-store load succeeding (a purely local step
that precedes the try block and involves no connection), construction never
raises, whatever the client construction, the info probe, and the setup calls
do: every such failure is caught and logged and the object is constructed. -/
theorem init_never_raises (connect : Except Err Client) :
    ∃ v, ElasticSearch.init (Except.ok ()) connect = Except.ok v := by
  unfold ElasticSearch.init
  cases connect with
  | error e => exact ⟨(false, []), rfl⟩
  | ok c =>
    cases hinfo : c.infoR with
    | error e => exact ⟨(false, [ESCall.infoCall]), by simp [hinfo]⟩
    | ok iv =>
      rcases hs : ElasticSearch.setup c with ⟨r, t⟩
      cases r with
      | error e => exact ⟨(false, ESCall.infoCall :: t), by simp [hinfo, hs]⟩
      | ok b => exact ⟨(true, ESCall.infoCall :: t), by simp [hinfo, hs]⟩

theorem query_ok (c : Client) (i : String) (q : JVal) (raw : Bool) (sz : Nat) :
    ∃ v, (ElasticSearch.query c i q raw sz).1 = Except.ok v := by
  cases hs : c.searchR i (JVal.obj [("query", q)]) sz with
  | error e => exact ⟨JVal.null, by simp [ElasticSearch.query, hs]⟩
  | ok resp =>
    cases raw with
    | true => exact ⟨resp, by simp [ElasticSearch.query, hs]⟩
    | false =>
      cases hh : hitsOf resp with
      | none => exact ⟨JVal.null, by simp [ElasticSearch.query, hs, hh]⟩
      | some hits => exact ⟨hits, by simp [ElasticSearch.query, hs, hh]⟩

/-- C3 counterexample: a client whose ping call raises makes the ping method
re-raise that exception to the caller instead of returning a sentinel. -/
theorem ping_reraises_counterexample :
    (ElasticSearch.ping errClient).1 = Except.error "boom" := rfl

/-- C3 amended: the client calls lying inside try blocks (empty_index, query,
store, get, put, and the create, delete and search calls of the other methods)
are caught and mapped to sentinels, but ping and check_index issue their call
outside any try block and re-raise client exceptions, as do the existence
pre-checks opening create_index, delete_index and setup. -/
theorem error_policy (c : Client) :
    (∀ e, c.pingR = .error e → (ElasticSearch.ping c).1 = .error e) ∧
    (∀ n e, c.existsR n = .error e → (ElasticSearch.check_index c n).1 = .error e) ∧
    (∀ n s m e, c.existsR n = .error e →
      (ElasticSearch.create_index c n s m).1 = .error e) ∧
    (∀ n e, c.existsR n = .error e → (ElasticSearch.delete_index c n).1 = .error e) ∧
    (∀ e, c.existsR "data" = .error e → (ElasticSearch.setup c).1 = .error e) ∧
    (∀ n s m b, c.existsR n = .ok b →
      ∃ r, (ElasticSearch.create_index c n s m).1 = .ok r) ∧
    (∀ n b, c.existsR n = .ok b → ∃ r, (ElasticSearch.delete_index c n).1 = .ok r) ∧
    (∀ b, c.existsR "data" = .ok b → ∃ r, (ElasticSearch.setup c).1 = .ok r) ∧
    (∀ n, ∃ r, (ElasticSearch.empty_index c n).1 = .ok r) ∧
    (∀ i q raw sz, ∃ v, (ElasticSearch.query c i q raw sz).1 = .ok v) ∧
    (∀ i b, ∃ r, (ElasticSearch.store c i b).1 = .ok r) ∧
    (∀ q, ∃ v, (ElasticSearch.get c q).1 = .ok v) ∧
    (∀ now b, ∃ r, (ElasticSearch.put c now b).1.1 = .ok r) := by
  refine ⟨?_, ?_, ?_, ?_, ?_, ?_, ?_, ?_, ?_, ?_, ?_, ?_, ?_⟩
  · intro e he
    simp [ElasticSearch.ping, he]
  · intro n e he
    simp [ElasticSearch.check_index, he]
  · intro n s m e he
    simp [ElasticSearch.create_index, he]
  · intro n e he
    simp [ElasticSearch.delete_index, he]
  · intro e he
    simp [ElasticSearch.setup, he]
  · intro n s m b hb
    cases b with
    | true => exact ⟨false, by simp [ElasticSearch.create_index, hb]⟩
    | false =>
      cases hcr : c.createR n s m with
      | ok v => exact ⟨true, by simp [ElasticSearch.create_index, hb, hcr]⟩
      | error e => exact ⟨false, by simp [ElasticSearch.create_index, hb, hcr]⟩
  · intro n b hb
    cases b with
    | false => exact ⟨false, by simp [ElasticSearch.delete_index, hb]⟩
    | true =>
      cases hd : c.deleteR n with
      | error e => exact ⟨false, by simp [ElasticSearch.delete_index, hb, hd]⟩
      | ok resp =>
        cases hj : jIndex resp "acknowledged" with
        | none => exact ⟨false, by simp [ElasticSearch.delete_index, hb, hd, hj]⟩
        | some v =>
          cases ht : truthy v with
          | true => exact ⟨true, by simp [ElasticSearch.delete_index, hb, hd, hj, ht]⟩
          | false => exact ⟨false, by simp [ElasticSearch.delete_index, hb, hd, hj, ht]⟩
  · intro b hb
    cases b with
    | true => exact ⟨true, by simp [ElasticSearch.setup, hb]⟩
    | false =>
      cases hcr : c.createR "data" ElasticSearch.setup_settings ElasticSearch.setup_mappings with
      | ok v =>
        exact ⟨true, by simp [ElasticSearch.setup, ElasticSearch.create_index, hb, hcr]⟩
      | error e =>
        exact ⟨false, by simp [ElasticSearch.setup, ElasticSearch.create_index, hb, hcr]⟩
  · intro n
    cases hd : c.deleteByQueryR n (JVal.obj [("match_all", JVal.obj [])]) with
    | ok v => exact ⟨true, by simp [ElasticSearch.empty_index, hd]⟩
    | error e => exact ⟨false, by simp [ElasticSearch.empty_index, hd]⟩
  · intro i q raw sz
    exact query_ok c i q raw sz
  · intro i b
    cases hi : c.indexR i b with
    | ok v => exact ⟨true, by simp [ElasticSearch.store, hi]⟩
    | error e => exact ⟨false, by simp [ElasticSearch.store, hi]⟩
  · intro q
    exact query_ok c "data" _ _ _
  · intro now b
    cases hi : c.indexR "data" (setField b "timestamp" (JVal.num (to_es_timestamp now))) with
    | ok v => exact ⟨true, by simp [ElasticSearch.put, ElasticSearch.store, hi]⟩
    | error e => exact ⟨false, by simp [ElasticSearch.put, ElasticSearch.store, hi]⟩

/-- Witness for the amended C3: at a concrete client whose creation call
raises while the existence check answers, create_index returns a sentinel. -/
theorem error_policy_witness :
    ∃ r, (ElasticSearch.create_index absClient "x" JVal.null JVal.null).1 = Except.ok r :=
  (error_policy absClient).2.2.2.2.2.1 "x" JVal.null JVal.null false rfl

/-- C4: query wraps the given query expression unmodified in a dict under the
single key query, requests size results from the search call (the size
parameter defaults to 10000 and raw to False in the source signature), and
returns None whenever the underlying search raises. -/
theorem query_wraps_and_null_on_error (c : Client) (i : String) (q : JVal)
    (raw : Bool) (sz : Nat) :
    (ElasticSearch.query c i q raw sz).2 =
      [ESCall.searchCall i (JVal.obj [("query", q)]) sz] ∧
    (∀ e, c.searchR i (JVal.obj [("query", q)]) sz = .error e →
      (ElasticSearch.query c i q raw sz).1 = .ok JVal.null) ∧
    ElasticSearch.query_default_raw = false ∧
    ElasticSearch.query_default_size = 10000 := by
  refine ⟨?_, ?_, rfl, rfl⟩
  · cases hs : c.searchR i (JVal.obj [("query", q)]) sz with
    | error e => simp [ElasticSearch.query, hs]
    | ok resp =>
      cases raw with
      | true => simp [ElasticSearch.query, hs]
      | false => cases hh : hitsOf resp <;> simp [ElasticSearch.query, hs, hh]
  · intro e he
    simp [ElasticSearch.query, he]

/-- Witness for C4 at a concrete client whose search raises. -/
theorem query_wraps_witness :
    (ElasticSearch.query errClient "data" (JVal.obj []) false 10000).1 =
      Except.ok JVal.null :=
  (query_wraps_and_null_on_error errClient "data" (JVal.obj []) false 10000).2.1 "boom" rfl

/-- C5 counterexample: on a concrete successful response the raw branch and
the non-raw branch of query return different values, refuting the claim that
the two branches are implemented identically. -/
theorem raw_branches_differ :
    (ElasticSearch.query dataClient "data" (JVal.obj []) true 10000).1 ≠
    (ElasticSearch.query dataClient "data" (JVal.obj []) false 10000).1 := by
  intro h
  have h1 : (ElasticSearch.query dataClient "data" (JVal.obj []) true 10000).1 =
      Except.ok sampleResp := rfl
  have h2 : (ElasticSearch.query dataClient "data" (JVal.obj []) false 10000).1 =
      Except.ok (JVal.arr [JVal.num 7]) := rfl
  rw [h1, h2] at h
  injection h with h3
  exact JVal.noConfusion h3

/-- C5 amended: on the success path the two branches differ: with raw=True the
full engine response is returned unshaped, while with raw=False the hits.hits
projection of the response is returned (None when that projection raises). -/
theorem query_raw_projects (c : Client) (i : String) (q : JVal) (sz : Nat)
    (resp : JVal)
    (h : c.searchR i (JVal.obj [("query", q)]) sz = .ok resp) :
    (ElasticSearch.query c i q true sz).1 = .ok resp ∧
    (ElasticSearch.query c i q false sz).1 =
      .ok (match hitsOf resp with | some hits => hits | none => JVal.null) := by
  constructor
  · simp [ElasticSearch.query, h]
  · cases hh : hitsOf resp <;> simp [ElasticSearch.query, h, hh]

/-- Witness for the amended C5 at a concrete response. -/
theorem query_raw_projects_witness :
    (ElasticSearch.query dataClient "data" (JVal.obj []) true 10000).1 =
      Except.ok sampleResp ∧
    (ElasticSearch.query dataClient "data" (JVal.obj []) false 10000).1 =
      Except.ok (match hitsOf sampleResp with | some hits => hits | none => JVal.null) :=
  query_raw_projects dataClient "data" (JVal.obj []) 10000 sampleResp rfl

/-- C6: create_index returns False when the index already exists, and then the
trace holds the existence check alone, so creation is never attempted and the
existing index is untouched; it returns False when the creation call raises;
and it returns True only when the creation call succeeds on an absent index. -/
theorem create_index_correct (c : Client) (n : String) (s m : JVal) :
    (c.existsR n = .ok true →
      ElasticSearch.create_index c n s m = (.ok false, [ESCall.existsCall n])) ∧
    (∀ e, c.existsR n = .ok false → c.createR n s m = .error e →
      (ElasticSearch.create_index c n s m).1 = .ok false) ∧
    ((ElasticSearch.create_index c n s m).1 = .ok true →
      c.existsR n = .ok false ∧ ∃ v, c.createR n s m = .ok v) := by
  refine ⟨?_, ?_, ?_⟩
  · intro h
    simp [ElasticSearch.create_index, h]
  · intro e h1 h2
    simp [ElasticSearch.create_index, h1, h2]
  · intro h
    cases hex : c.existsR n with
    | error e => simp [ElasticSearch.create_index, hex] at h
    | ok b =>
      cases b with
      | true => simp [ElasticSearch.create_index, hex] at h
      | false =>
        cases hcr : c.createR n s m with
        | error e => simp [ElasticSearch.create_index, hex, hcr] at h
        | ok v => exact ⟨rfl, v, rfl⟩

/-- Witness for C6: creating an index that exists returns False with only the
existence check issued. -/
theorem create_index_correct_witness :
    ElasticSearch.create_index dataClient "data" JVal.null JVal.null =
      (Except.ok false, [ESCall.existsCall "data"]) :=
  (create_index_correct dataClient "data" JVal.null JVal.null).1 rfl

/-- C7: delete_index returns False when the index does not exist, and then the
trace holds the existence probe alone, so no deletion call is issued; it
returns False when the deletion call raises or the response has no truthy
acknowledged field; and it returns True only on an acknowledged deletion. -/
theorem delete_index_correct (c : Client) (n : String) :
    (c.existsR n = .ok false →
      ElasticSearch.delete_index c n = (.ok false, [ESCall.existsCall n])) ∧
    (∀ e, c.existsR n = .ok true → c.deleteR n = .error e →
      (ElasticSearch.delete_index c n).1 = .ok false) ∧
    (∀ resp v, c.existsR n = .ok true → c.deleteR n = .ok resp →
      jIndex resp "acknowledged" = some v → truthy v = false →
      (ElasticSearch.delete_index c n).1 = .ok false) ∧
    ((ElasticSearch.delete_index c n).1 = .ok true →
      c.existsR n = .ok true ∧ ∃ resp v, c.deleteR n = .ok resp ∧
        jIndex resp "acknowledged" = some v ∧ truthy v = true) := by
  refine ⟨?_, ?_, ?_, ?_⟩
  · intro h
    simp [ElasticSearch.delete_index, h]
  · intro e h1 h2
    simp [ElasticSearch.delete_index, h1, h2]
  · intro resp v h1 h2 h3 h4
    simp [ElasticSearch.delete_index, h1, h2, h3, h4]
  · intro h
    cases hex : c.existsR n with
    | error e => simp [ElasticSearch.delete_index, hex] at h
    | ok b =>
      cases b with
      | false => simp [ElasticSearch.delete_index, hex] at h
      | true =>
        cases hd : c.deleteR n with
        | error e => simp [ElasticSearch.delete_index, hex, hd] at h
        | ok resp =>
          cases hj : jIndex resp "acknowledged" with
          | none => simp [ElasticSearch.delete_index, hex, hd, hj] at h
          | some v =>
            cases ht : truthy v with
            | false => simp [ElasticSearch.delete_index, hex, hd, hj, ht] at h
            | true => exact ⟨rfl, resp, v, rfl, hj, ht⟩

/-- Witness for C7: deleting a non-existent index returns False with only the
existence probe issued. -/
theorem delete_index_correct_witness :
    ElasticSearch.delete_index absClient "data" =
      (Except.ok false, [ESCall.existsCall "data"]) :=
  (delete_index_correct absClient "data").1 rfl

/-- C8: setup is idempotent: when the data index already exists, as after a
first successful run, it returns True having issued only the existence check,
changing nothing; when the index is absent it creates the data index with
exactly the fixed two-field mapping (id of type long; timestamp of type date
accepting the formats yyyy-MM-dd HH:mm:ss, yyyy-MM-dd and epoch_millis) and
the settings of 2 shards and 2 replicas. -/
theorem setup_idempotent (c : Client) :
    (c.existsR "data" = .ok true →
      ElasticSearch.setup c = (.ok true, [ESCall.existsCall "data"])) ∧
    (∀ v, c.existsR "data" = .ok false →
      c.createR "data" ElasticSearch.setup_settings ElasticSearch.setup_mappings = .ok v →
      ElasticSearch.setup c = (.ok true,
        [ESCall.existsCall "data", ESCall.existsCall "data",
         ESCall.createCall "data" ElasticSearch.setup_settings ElasticSearch.setup_mappings])) ∧
    ElasticSearch.setup_settings =
      JVal.obj [("number_of_shards", JVal.num 2), ("number_of_replicas", JVal.num 2)] ∧
    ElasticSearch.setup_mappings =
      JVal.obj [("properties", JVal.obj
        [("id", JVal.obj [("type", JVal.str "long")]),
         ("timestamp", JVal.obj
           [("type", JVal.str "date"),
            ("format", JVal.str "yyyy-MM-dd HH:mm:ss||yyyy-MM-dd||epoch_millis")])])] := by
  refine ⟨?_, ?_, rfl, rfl⟩
  · intro h
    simp [ElasticSearch.setup, h]
  · intro v h1 h2
    simp [ElasticSearch.setup, ElasticSearch.create_index, h1, h2]

/-- Witness for C8: a second setup call on a client already holding the data
index returns True and issues only the existence check. -/
theorem setup_idempotent_witness :
    ElasticSearch.setup dataClient = (Except.ok true, [ESCall.existsCall "data"]) :=
  (setup_idempotent dataClient).1 rfl
